import Mathlib

/-!
Verification of the remote-resource access layer of the store back-office
client (react-native-magento-admin): paging arithmetic, query compilation,
session lifecycle, error classification, bulk-delete orchestration and the
client-side category-tree filter, shallowly embedded from the TypeScript
source in src/app/services/api.ts, src/app/(app)/products/[id].tsx and the
categories screen.
-/

/-- JS Math.ceil(t / p) for natural t and positive p, as computed by the
list operations in api.ts (they divide the platform-reported total_count by
the requested pageSize and round up). -/
def jsCeilDiv (t p : Nat) : Nat := (t + p - 1) / p

/-- Ceiling written the way the spec states it: floor division plus one
extra page when the division is not exact. Used only to compare the code
formula against the words ceil(totalCount / pageSize). -/
def specCeil (t p : Nat) : Nat := t / p + (if t % p = 0 then 0 else 1)

theorem jsCeilDiv_eq_specCeil (t p : Nat) (hp : 1 ≤ p) :
    jsCeilDiv t p = specCeil t p := by
  unfold jsCeilDiv specCeil
  have hd := Nat.div_add_mod t p
  have hm : t % p < p := Nat.mod_lt _ (by omega)
  rcases Nat.eq_zero_or_pos (t % p) with h0 | hpos
  · have h1 : t + p - 1 = p * (t / p) + (p - 1) := by omega
    have h4 : (p - 1) / p = 0 := Nat.div_eq_of_lt (by omega)
    rw [h1, Nat.mul_add_div (by omega), h4]
    simp [h0]
  · have h2 : p * (t / p + 1) = p * (t / p) + p := by ring
    have h1 : t + p - 1 = p * (t / p + 1) + (t % p - 1) := by omega
    have h3 : t % p ≠ 0 := by omega
    have h4 : (t % p - 1) / p = 0 := Nat.div_eq_of_lt (by omega)
    rw [h1, Nat.mul_add_div (by omega), h4]
    simp [h3]

/-- JS truthiness fallback x || 0 applied to a possibly-absent numeric
field of the platform response. -/
def orZero : Option Nat → Nat
  | none => 0
  | some n => n

/-- A category node as declared in api.ts (interface Category) and in the
categories screen: recursive through children_data. -/
inductive Category where
  | mk (id : Nat) (parent_id : Nat) (name : String) (is_active : Bool)
       (position : Nat) (level : Nat) (product_count : Nat)
       (children_data : List Category)

def Category.name : Category → String
  | .mk _ _ n _ _ _ _ _ => n

def Category.children_data : Category → List Category
  | .mk _ _ _ _ _ _ _ c => c

/-- The paged result each list operation of api.ts returns. The item type
is left abstract; paging metadata is what the claims are about. -/
structure PagedResult (α : Type) where
  items : List α
  total_count : Nat
  current_page : Nat
  total_pages : Nat
deriving DecidableEq

/-- Platform response body consumed by getOrders, getProducts and
getCustomers: an items array and a total_count assumed present. -/
structure ListResponse (α : Type) where
  items : List α
  total_count : Nat

/-- Result construction of api.getOrders (api.ts lines 232-237): items and
total_count are taken from the response, total_pages is
Math.ceil(total_count / pageSize). -/
def getOrders_result (resp : ListResponse α) (page pageSize : Nat) : PagedResult α :=
  { items := resp.items
    total_count := resp.total_count
    current_page := page
    total_pages := jsCeilDiv resp.total_count pageSize }

/-- Result construction of api.getProducts (api.ts lines 339-344), same
shape as getOrders. -/
def getProducts_result (resp : ListResponse α) (page pageSize : Nat) : PagedResult α :=
  { items := resp.items
    total_count := resp.total_count
    current_page := page
    total_pages := jsCeilDiv resp.total_count pageSize }

/-- Result construction of api.getCustomers (api.ts lines 401-406), same
shape as getOrders. -/
def getCustomers_result (resp : ListResponse α) (page pageSize : Nat) : PagedResult α :=
  { items := resp.items
    total_count := resp.total_count
    current_page := page
    total_pages := jsCeilDiv resp.total_count pageSize }

/-- Platform response body consumed by getCategories: the root category
carries children_data, may carry an items array (ignored by the code), and
total_count may be absent. -/
structure CategoriesResponse where
  children_data : List Category
  items : Option (List Category)
  total_count : Option Nat

/-- Result construction of api.getCategories (api.ts lines 463-468): items
come from response.data.children_data, total_count is
response.data.total_count || 0, total_pages is
Math.ceil((response.data.total_count || 0) / pageSize). -/
def getCategories_result (resp : CategoriesResponse) (page pageSize : Nat) :
    PagedResult Category :=
  { items := resp.children_data
    total_count := orZero resp.total_count
    current_page := page
    total_pages := jsCeilDiv (orZero resp.total_count) pageSize }

theorem jsCeilDiv_pos {t p : Nat} (hp : 1 ≤ p) (ht : 1 ≤ t) : 1 ≤ jsCeilDiv t p := by
  unfold jsCeilDiv
  rw [Nat.le_div_iff_mul_le (by omega)]
  omega

theorem jsCeilDiv_zero {p : Nat} (hp : 1 ≤ p) : jsCeilDiv 0 p = 0 := by
  unfold jsCeilDiv
  exact Nat.div_eq_of_lt (by omega)

/-- C1 (amended): for every list operation (getOrders, getProducts,
getCustomers, getCategories) and every pageSize at least 1, the returned
total_pages equals ceil(totalCount / pageSize); consequently total_pages
is at least 1 whenever totalCount is at least 1, but when totalCount is 0
the code returns total_pages 0, not 1. -/
theorem list_total_pages_spec {α : Type} (resp : ListResponse α)
    (cresp : CategoriesResponse) (page pageSize : Nat) (hp : 1 ≤ pageSize) :
    ((getOrders_result resp page pageSize).total_pages = specCeil resp.total_count pageSize
      ∧ (getProducts_result resp page pageSize).total_pages = specCeil resp.total_count pageSize
      ∧ (getCustomers_result resp page pageSize).total_pages = specCeil resp.total_count pageSize
      ∧ (getCategories_result cresp page pageSize).total_pages
          = specCeil (orZero cresp.total_count) pageSize)
    ∧ (1 ≤ resp.total_count →
        1 ≤ (getOrders_result resp page pageSize).total_pages
        ∧ 1 ≤ (getProducts_result resp page pageSize).total_pages
        ∧ 1 ≤ (getCustomers_result resp page pageSize).total_pages)
    ∧ (resp.total_count = 0 → (getOrders_result resp page pageSize).total_pages = 0) := by
  refine ⟨⟨?_, ?_, ?_, ?_⟩, ?_, ?_⟩
  · exact jsCeilDiv_eq_specCeil _ _ hp
  · exact jsCeilDiv_eq_specCeil _ _ hp
  · exact jsCeilDiv_eq_specCeil _ _ hp
  · exact jsCeilDiv_eq_specCeil _ _ hp
  · intro ht
    exact ⟨jsCeilDiv_pos hp ht, jsCeilDiv_pos hp ht, jsCeilDiv_pos hp ht⟩
  · intro ht
    simp only [getOrders_result, ht]
    exact jsCeilDiv_zero hp

/-- C1 witness: concrete instance of the amended paging theorem at
totalCount 45 and pageSize 20. -/
theorem list_total_pages_spec_witness :
    1 ≤ 20
    ∧ (((getOrders_result (α := Nat) ⟨[], 45⟩ 1 20).total_pages = specCeil 45 20
        ∧ (getProducts_result (α := Nat) ⟨[], 45⟩ 1 20).total_pages = specCeil 45 20
        ∧ (getCustomers_result (α := Nat) ⟨[], 45⟩ 1 20).total_pages = specCeil 45 20
        ∧ (getCategories_result ⟨[], none, none⟩ 1 20).total_pages
            = specCeil (orZero none) 20)
      ∧ (1 ≤ (45 : Nat) →
          1 ≤ (getOrders_result (α := Nat) ⟨[], 45⟩ 1 20).total_pages
          ∧ 1 ≤ (getProducts_result (α := Nat) ⟨[], 45⟩ 1 20).total_pages
          ∧ 1 ≤ (getCustomers_result (α := Nat) ⟨[], 45⟩ 1 20).total_pages)
      ∧ ((45 : Nat) = 0 → (getOrders_result (α := Nat) ⟨[], 45⟩ 1 20).total_pages = 0)) :=
  ⟨by decide, list_total_pages_spec ⟨[], 45⟩ ⟨[], none, none⟩ 1 20 (by decide)⟩

/-- C1 counterexample: with the platform reporting totalCount 0 and the
requested pageSize 20, getOrders returns total_pages 0, refuting the
clause total_pages at least 1 even when totalCount is 0. -/
theorem getOrders_total_pages_zero_counterexample :
    ¬ 1 ≤ (getOrders_result (α := Nat) ⟨[], 0⟩ 1 20).total_pages := by decide

/-- C10: every successful getCategories call takes its items from the
response children_data field, regardless of any items field the response
may carry; and when the response carries no total_count, the call returns
total_count 0 and total_pages 0 without raising an error. -/
theorem getCategories_children_data_and_missing_count (resp : CategoriesResponse)
    (page pageSize : Nat) (hp : 1 ≤ pageSize) :
    (getCategories_result resp page pageSize).items = resp.children_data
    ∧ (resp.total_count = none →
        (getCategories_result resp page pageSize).total_count = 0
        ∧ (getCategories_result resp page pageSize).total_pages = 0) := by
  refine ⟨rfl, fun hnone => ?_⟩
  simp only [getCategories_result, hnone]
  exact ⟨rfl, jsCeilDiv_zero hp⟩

/-- C10 witness: concrete getCategories response with an items field the
code ignores and no total_count. -/
theorem getCategories_children_data_witness :
    1 ≤ 20
    ∧ ((getCategories_result ⟨[Category.mk 3 1 "Sale" true 0 2 0 []], some [], none⟩ 1 20).items
          = [Category.mk 3 1 "Sale" true 0 2 0 []]
      ∧ ((⟨[Category.mk 3 1 "Sale" true 0 2 0 []], some [], none⟩ : CategoriesResponse).total_count = none →
          (getCategories_result ⟨[Category.mk 3 1 "Sale" true 0 2 0 []], some [], none⟩ 1 20).total_count = 0
          ∧ (getCategories_result ⟨[Category.mk 3 1 "Sale" true 0 2 0 []], some [], none⟩ 1 20).total_pages = 0)) :=
  ⟨by decide,
   getCategories_children_data_and_missing_count
     ⟨[Category.mk 3 1 "Sale" true 0 2 0 []], some [], none⟩ 1 20 (by decide)⟩

/-- Events broadcast through EventRegister; the code only ever emits the
logout event (api.ts line 178). -/
inductive Event where
  | logout
deriving DecidableEq

/-- An error reaching a catch block in api.ts: an HTTP response carrying a
status and an optional message body, a request that received no response,
or anything else. -/
inductive RemoteError where
  | httpResponse (status : Nat) (message : Option String)
  | noResponse
  | other
deriving DecidableEq

/-- What an api operation surfaces to its caller on failure: a fresh Error
with a message, or the original error rethrown. -/
inductive AppError where
  | message (text : String)
  | raw (e : RemoteError)
deriving DecidableEq

def sessionExpiredMessage : String := "Your session has expired. Please login again."

/-- handleAuthError (api.ts lines 175-182): if the error carries HTTP
status 401 it emits the logout event and throws the session-expired error;
otherwise it rethrows the original error. The result pairs the emitted
events with the error that propagates. -/
def handleAuthError : RemoteError → List Event × AppError
  | .httpResponse 401 _ => ([.logout], .message sessionExpiredMessage)
  | e => ([], .raw e)

/-- The operations of the api object in api.ts. -/
inductive ApiOp where
  | getOrders
  | getOrderDetails
  | getProducts
  | getProductDetails
  | getCustomers
  | getCustomerDetails
  | getCategories
  | getCategoryDetails
  | createProduct
  | uploadProductImage
  | deleteProduct
  | deleteProductImage
  | updateProduct
  | deleteCategory
deriving DecidableEq

/-- Outcome of an api operation whose remote response came back with the
given HTTP error status: the events emitted and the error thrown. Every
axios-based operation starts its catch block with handleAuthError, which
always throws, so its result is exactly that of handleAuthError.
deleteCategory (api.ts lines 671-683) instead uses fetch, checks
response.ok, and throws a fixed message while emitting nothing. -/
def onHttpErrorStatus (op : ApiOp) (status : Nat) (message : Option String) :
    List Event × AppError :=
  match op with
  | .deleteCategory => ([], .message "Failed to delete category")
  | _ => handleAuthError (.httpResponse status message)

theorem handleAuthError_not_401 (s : Nat) (m : Option String) (h : s ≠ 401) :
    handleAuthError (.httpResponse s m) = ([], .raw (.httpResponse s m)) := by
  unfold handleAuthError
  split
  · simp_all
  · rfl

/-- C2 (amended): every axios-based api operation, that is every operation
except deleteCategory, reacts to HTTP 401 by emitting exactly the logout
event and failing with the session-expired error, never any other error
kind; deleteCategory, however, performs no 401 handling at all: on 401 it
emits nothing and throws the generic failed-to-delete message. -/
theorem api_401_handling (op : ApiOp) (m : Option String)
    (hop : op ≠ ApiOp.deleteCategory) :
    onHttpErrorStatus op 401 m = ([Event.logout], AppError.message sessionExpiredMessage)
    ∧ onHttpErrorStatus ApiOp.deleteCategory 401 m
        = ([], AppError.message "Failed to delete category") := by
  constructor
  · cases op <;> first | rfl | exact absurd rfl hop
  · rfl

/-- C2 witness: the amended 401 theorem instantiated at getOrders. -/
theorem api_401_handling_witness :
    ApiOp.getOrders ≠ ApiOp.deleteCategory
    ∧ (onHttpErrorStatus ApiOp.getOrders 401 none
          = ([Event.logout], AppError.message sessionExpiredMessage)
      ∧ onHttpErrorStatus ApiOp.deleteCategory 401 none
          = ([], AppError.message "Failed to delete category")) :=
  ⟨by decide, api_401_handling ApiOp.getOrders none (by decide)⟩

/-- C2 counterexample: deleteCategory receiving HTTP 401 does not emit the
logout event and does not fail with the session-expired error, refuting
the claim that every gateway operation, deleteCategory included, does. -/
theorem deleteCategory_401_counterexample :
    ¬ onHttpErrorStatus ApiOp.deleteCategory 401 none
        = ([Event.logout], AppError.message sessionExpiredMessage) := by decide

/-- Logout events emitted when in-flight calls complete with the given
HTTP statuses: each 401 goes through handleAuthError, which emits one
logout event unconditionally; the code holds no deduplication latch. -/
def emittedLogouts : List Nat → List Event
  | [] => []
  | s :: rest => (handleAuthError (.httpResponse s none)).1 ++ emittedLogouts rest

/-- C6 (amended): the logout signal is emitted once per 401 response, with
no collapsing: a batch of concurrent 401s produces as many logout
broadcasts as there are 401s, not one. -/
theorem emittedLogouts_count (statuses : List Nat) :
    (emittedLogouts statuses).length = statuses.countP (fun s => s = 401) := by
  induction statuses with
  | nil => rfl
  | cons s rest ih =>
    by_cases h : s = 401
    · subst h
      simp [emittedLogouts, handleAuthError, List.countP_cons, ih]
    · simp [emittedLogouts, handleAuthError_not_401 s none h, List.countP_cons, h, ih]

/-- C6 counterexample: two in-flight calls each receiving HTTP 401 produce
two logout broadcasts, not exactly one. -/
theorem concurrent_401_counterexample :
    ¬ (emittedLogouts [401, 401]).length = 1 := by decide

/-- Condition types used by the filter predicates in api.ts. -/
inductive CondType where
  | eq
  | like
deriving DecidableEq

/-- A filter value as placed into searchCriteria: the status predicate
carries the numeric status, the search predicates carry a wildcard-wrapped
string. -/
inductive FilterValue where
  | num (n : Nat)
  | str (s : String)
deriving DecidableEq

/-- One predicate of a filterGroup, as built in getProducts. -/
structure SCFilter where
  field : String
  value : FilterValue
  conditionType : CondType
deriving DecidableEq

/-- A filterGroup of searchCriteria: its predicates are OR-combined by the
platform, while distinct groups are AND-combined. -/
structure FilterGroup where
  filters : List SCFilter
deriving DecidableEq

/-- Product status values: the TypeScript type is 1 or 2 or null, and the
code guards with JS truthiness, which both non-null values pass. -/
inductive ProductStatus where
  | enabled
  | disabled
deriving DecidableEq

def ProductStatus.toNat : ProductStatus → Nat
  | .enabled => 1
  | .disabled => 2

/-- The optional filters argument of getProducts (interface
ProductFilters in api.ts). -/
structure ProductFilters where
  status : Option ProductStatus
  search : Option String
deriving DecidableEq

/-- The filterGroups getProducts adds to searchCriteria (api.ts lines
289-328): a status filter contributes a group with one eq predicate; a
truthy search string appends a fresh group, at index 1 when the status
group exists and 0 otherwise, holding one like predicate per field name,
sku, description, eancode, each value wrapped in percent wildcards. -/
def buildProductFilterGroups (filters : Option ProductFilters) : List FilterGroup :=
  match filters with
  | none => []
  | some f =>
    let statusGroups : List FilterGroup :=
      match f.status with
      | some st => [⟨[⟨"status", .num st.toNat, .eq⟩]⟩]
      | none => []
    match f.search with
    | some q =>
      if q.isEmpty then statusGroups
      else
        statusGroups ++ [⟨[⟨"name", .str ("%" ++ q ++ "%"), .like⟩,
                           ⟨"sku", .str ("%" ++ q ++ "%"), .like⟩,
                           ⟨"description", .str ("%" ++ q ++ "%"), .like⟩,
                           ⟨"eancode", .str ("%" ++ q ++ "%"), .like⟩]⟩]
    | none => statusGroups

/-- The full searchCriteria getProducts sends (api.ts lines 277-338):
paging, the fixed created_at descending sort, and the compiled
filterGroups. Sort orders are field and direction pairs. -/
structure SearchCriteria where
  currentPage : Nat
  pageSize : Nat
  sortOrders : List (String × String)
  filterGroups : List FilterGroup
deriving DecidableEq

def getProducts_searchCriteria (page pageSize : Nat) (filters : Option ProductFilters) :
    SearchCriteria :=
  { currentPage := page
    pageSize := pageSize
    sortOrders := [("created_at", "DESC")]
    filterGroups := buildProductFilterGroups filters }

/-- C5: a getProducts call carrying both a status filter and a non-empty
search string compiles searchCriteria with exactly two filterGroups: group
0 holds the single eq predicate on status, and the distinct group 1 holds
one like predicate for each of name, sku, description and eancode, each
value wrapped with the percent wildcard on both ends. -/
theorem getProducts_status_and_search_groups (page pageSize : Nat)
    (st : ProductStatus) (q : String) (hq : q.isEmpty = false) :
    (getProducts_searchCriteria page pageSize (some ⟨some st, some q⟩)).filterGroups
      = [⟨[⟨"status", .num st.toNat, .eq⟩]⟩,
         ⟨[⟨"name", .str ("%" ++ q ++ "%"), .like⟩,
           ⟨"sku", .str ("%" ++ q ++ "%"), .like⟩,
           ⟨"description", .str ("%" ++ q ++ "%"), .like⟩,
           ⟨"eancode", .str ("%" ++ q ++ "%"), .like⟩]⟩] := by
  simp [getProducts_searchCriteria, buildProductFilterGroups, hq]

/-- C5 witness: the compiled filterGroups for status enabled and search
string shirt. -/
theorem getProducts_status_and_search_groups_witness :
    "shirt".isEmpty = false
    ∧ (getProducts_searchCriteria 1 20 (some ⟨some ProductStatus.enabled, some "shirt"⟩)).filterGroups
        = [⟨[⟨"status", .num ProductStatus.enabled.toNat, .eq⟩]⟩,
           ⟨[⟨"name", .str ("%" ++ "shirt" ++ "%"), .like⟩,
             ⟨"sku", .str ("%" ++ "shirt" ++ "%"), .like⟩,
             ⟨"description", .str ("%" ++ "shirt" ++ "%"), .like⟩,
             ⟨"eancode", .str ("%" ++ "shirt" ++ "%"), .like⟩]⟩] :=
  ⟨by decide, getProducts_status_and_search_groups 1 20 ProductStatus.enabled "shirt" (by decide)⟩

/-- One selected product of the bulk delete, with the outcome the remote
would give each of its steps: one Boolean per media-delete sub-step, in
gallery order, and one for the product-delete primary step; true means
that call succeeds, false that it throws. -/
structure BulkItem where
  sku : String
  mediaOutcomes : List Bool
  primaryOutcome : Bool
deriving DecidableEq

/-- What the execution of one item actually did: the outcomes of the
media-delete sub-steps that were attempted, whether the product-delete
primary step was reached, and whether it succeeded. -/
structure ItemTrace where
  sku : String
  subResults : List Bool
  primaryAttempted : Bool
  primarySucceeded : Bool
deriving DecidableEq

/-- The inner media loop of handleDeleteSelected: each media delete is
awaited in order and a failure throws, so sub-steps after the first
failure are not attempted. Results pair the attempted outcomes with
whether the loop finished. -/
def runMediaSteps : List Bool → List Bool × Bool
  | [] => ([], true)
  | o :: rest =>
    if o then (true :: (runMediaSteps rest).1, (runMediaSteps rest).2)
    else ([false], false)

/-- One iteration of the loop of handleDeleteSelected
(products/[id].tsx lines 539-578): media deletes run first, and the
product delete is awaited only if no media delete threw. -/
def runBulkItem (it : BulkItem) : ItemTrace × Bool :=
  let m := runMediaSteps it.mediaOutcomes
  if m.2 then (⟨it.sku, m.1, true, it.primaryOutcome⟩, it.primaryOutcome)
  else (⟨it.sku, m.1, false, false⟩, false)

/-- The whole bulk delete: the for loop over the selected products sits
inside a single try/catch, so the first thrown error aborts the loop and
items after the failure are never attempted. -/
def runBulkDelete : List BulkItem → List ItemTrace × Bool
  | [] => ([], true)
  | it :: rest =>
    if (runBulkItem it).2 then
      ((runBulkItem it).1 :: (runBulkDelete rest).1, (runBulkDelete rest).2)
    else ([(runBulkItem it).1], false)

theorem runBulkItem_ok {it : BulkItem} (h : (runBulkItem it).2 = true) :
    (runBulkItem it).1.primaryAttempted = true
    ∧ (runBulkItem it).1.primarySucceeded = true := by
  unfold runBulkItem at h ⊢
  by_cases hm : (runMediaSteps it.mediaOutcomes).2
  · simp [hm] at h ⊢
    exact h
  · simp [hm] at h

/-- C3 (amended): in the bulk product delete, a failing item aborts the
whole loop: the items before it are attempted and succeed, the failing
item contributes the single failing trace, and the items after it are
never attempted, because the for loop sits inside one try/catch. -/
theorem bulk_delete_aborts_at_failure (good : List BulkItem) (bad : BulkItem)
    (rest : List BulkItem)
    (hgood : ∀ it ∈ good, (runBulkItem it).2 = true)
    (hbad : (runBulkItem bad).2 = false) :
    (runBulkDelete (good ++ bad :: rest)).1
        = good.map (fun it => (runBulkItem it).1) ++ [(runBulkItem bad).1]
    ∧ (runBulkDelete (good ++ bad :: rest)).2 = false
    ∧ (∀ it ∈ good, (runBulkItem it).1.primarySucceeded = true)
    ∧ (runBulkItem bad).1.primarySucceeded = false := by
  refine ⟨?_, ?_, fun it hit => (runBulkItem_ok (hgood it hit)).2, ?_⟩
  · induction good with
    | nil => simp [runBulkDelete, hbad]
    | cons g gs ih =>
      have hg : (runBulkItem g).2 = true := hgood g (by simp)
      simp only [List.cons_append, runBulkDelete, hg, if_pos]
      have := ih (fun it hit => hgood it (by simp [hit]))
      simp [this]
  · induction good with
    | nil => simp [runBulkDelete, hbad]
    | cons g gs ih =>
      have hg : (runBulkItem g).2 = true := hgood g (by simp)
      simp only [List.cons_append, runBulkDelete, hg, if_pos]
      exact ih (fun it hit => hgood it (by simp [hit]))
  · unfold runBulkItem at hbad ⊢
    by_cases hm : (runMediaSteps bad.mediaOutcomes).2
    · simp [hm] at hbad ⊢
      exact hbad
    · simp [hm]

/-- C3 witness: two items where the first fails its primary step and the
second would fully succeed; the plan holds only the failing trace of the
trace. -/
theorem bulk_delete_aborts_at_failure_witness :
    (∀ it ∈ ([] : List BulkItem), (runBulkItem it).2 = true)
    ∧ (runBulkItem ⟨"A", [], false⟩).2 = false
    ∧ ((runBulkDelete ([] ++ ⟨"A", [], false⟩ :: [⟨"B", [], true⟩])).1
          = ([] : List BulkItem).map (fun it => (runBulkItem it).1)
              ++ [(runBulkItem ⟨"A", [], false⟩).1]
      ∧ (runBulkDelete ([] ++ ⟨"A", [], false⟩ :: [⟨"B", [], true⟩])).2 = false
      ∧ (∀ it ∈ ([] : List BulkItem), (runBulkItem it).1.primarySucceeded = true)
      ∧ (runBulkItem ⟨"A", [], false⟩).1.primarySucceeded = false) :=
  ⟨by decide, by decide,
   bulk_delete_aborts_at_failure [] ⟨"A", [], false⟩ [⟨"B", [], true⟩]
     (by decide) (by decide)⟩

/-- C3 counterexample: with two selected items where the first fails its
primary step and the second would succeed at every step, the second item
is never attempted: the plan holds one trace, not a success report for the
other item. -/
theorem bulk_isolation_counterexample :
    ¬ ((runBulkDelete [⟨"A", [], false⟩, ⟨"B", [], true⟩]).1.length = 2) := by decide

theorem runMediaSteps_first_failure (pre post : List Bool)
    (hpre : ∀ b ∈ pre, b = true) :
    runMediaSteps (pre ++ false :: post) = (pre ++ [false], false) := by
  induction pre with
  | nil => rfl
  | cons b bs ih =>
    have hb : b = true := hpre b (by simp)
    subst hb
    have ih2 := ih (fun x hx => hpre x (by simp [hx]))
    simp [runMediaSteps, ih2]

/-- C4 (amended): within a single bulk-deleted item, the first failing
media-delete sub-step throws out of the whole loop: the sub-steps after it
are not attempted, the product-delete primary step of that same item is
not attempted either, and no later item is processed; the recorded trace
shows the successful sub-steps followed by the one failure, with the
primary step unattempted. -/
theorem substep_failure_aborts_item (sku : String) (pre post : List Bool)
    (primary : Bool) (rest : List BulkItem)
    (hpre : ∀ b ∈ pre, b = true) :
    runBulkItem ⟨sku, pre ++ false :: post, primary⟩
        = (⟨sku, pre ++ [false], false, false⟩, false)
    ∧ runBulkDelete (⟨sku, pre ++ false :: post, primary⟩ :: rest)
        = ([⟨sku, pre ++ [false], false, false⟩], false) := by
  have hm := runMediaSteps_first_failure pre post hpre
  have hitem : runBulkItem ⟨sku, pre ++ false :: post, primary⟩
      = (⟨sku, pre ++ [false], false, false⟩, false) := by
    unfold runBulkItem
    rw [hm]
    rfl
  refine ⟨hitem, ?_⟩
  unfold runBulkDelete
  rw [hitem]
  simp

/-- C4 witness: item A with one failing media-delete sub-step and a
primary step that would succeed, followed by a fully healthy item B; the
primary step of A is not attempted and B is not processed. -/
theorem substep_failure_aborts_item_witness :
    (∀ b ∈ ([true] : List Bool), b = true)
    ∧ (runBulkItem ⟨"A", [true] ++ false :: [], true⟩
          = (⟨"A", [true] ++ [false], false, false⟩, false)
      ∧ runBulkDelete (⟨"A", [true] ++ false :: [], true⟩ :: [⟨"B", [], true⟩])
          = ([⟨"A", [true] ++ [false], false, false⟩], false)) :=
  ⟨by decide,
   substep_failure_aborts_item "A" [true] [] true [⟨"B", [], true⟩] (by decide)⟩

/-- C4 counterexample: an item whose only media-delete sub-step fails but
whose product delete would succeed is not reported as primary-succeeded:
the primary step of that item is never attempted. -/
theorem substep_failure_counterexample :
    ¬ ((runBulkItem ⟨"A", [false], true⟩).1.primaryAttempted = true
       ∧ (runBulkItem ⟨"A", [false], true⟩).1.primarySucceeded = true) := by decide

/-- Character-list version of JS String.prototype.includes: the needle is
contained in the haystack when it is a prefix of some suffix; the empty
needle is contained in everything. -/
def containsChars (needle : List Char) : List Char → Bool
  | [] => needle.isEmpty
  | a :: rest => needle.isPrefixOf (a :: rest) || containsChars needle rest

/-- JS hay.includes(needle) over the underlying characters. -/
def strIncludes (hay needle : String) : Bool := containsChars needle.data hay.data

/-- JS s.toLowerCase() modelled character-wise. -/
def lowerChars (cs : List Char) : List Char := cs.map Char.toLower

/-- The lowercased string, built from the lowercased characters. -/
def lowerStr (s : String) : String := ⟨lowerChars s.data⟩

theorem containsChars_iff (needle hay : List Char) :
    containsChars needle hay = true ↔ needle <:+: hay := by
  induction hay with
  | nil =>
    simp only [containsChars, List.isEmpty_iff, List.infix_nil]
  | cons a rest ih =>
    simp only [containsChars, Bool.or_eq_true, List.infix_cons_iff,
      List.isPrefixOf_iff_prefix, ih]

/-- The name test of the categories screen search: the lowercased node
name contains the lowercased query. -/
def nameMatches (q : String) (c : Category) : Bool :=
  strIncludes (lowerStr c.name) (lowerStr q)

theorem nameMatches_iff (q : String) (c : Category) :
    nameMatches q c = true ↔ (lowerStr q).data <:+: (lowerStr c.name).data :=
  containsChars_iff _ _

mutual

/-- The matchesSearch closure of filteredCategories in the categories
screen (src/unnamed/part_000 lines 146-156): a node matches when its
lowercased name contains the lowercased query or some child subtree
matches. -/
def matchesSearch (q : String) : Category → Bool
  | .mk _ _ name _ _ _ _ children =>
    strIncludes (lowerStr name) (lowerStr q) || anyMatchesSearch q children

/-- cat.children_data.some(matchesSearch) of the same closure. -/
def anyMatchesSearch (q : String) : List Category → Bool
  | [] => false
  | c :: cs => matchesSearch q c || anyMatchesSearch q cs

end

/-- filteredCategories of the categories screen: the loaded top-level
categories whose subtree matches the search query; matching trees are kept
whole. -/
def filteredCategories (searchQuery : String) (categories : List Category) :
    List Category :=
  categories.filter (matchesSearch searchQuery)

mutual

/-- A node and all its recursive descendants. -/
def subtreeNodes : Category → List Category
  | .mk i p n a pos l pc children =>
    .mk i p n a pos l pc children :: forestNodes children

/-- All nodes of a forest of category trees. -/
def forestNodes : List Category → List Category
  | [] => []
  | c :: cs => subtreeNodes c ++ forestNodes cs

end

mutual

theorem matchesSearch_iff (q : String) (c : Category) :
    matchesSearch q c = true ↔ ∃ d ∈ subtreeNodes c, nameMatches q d = true := by
  cases c with
  | mk i p n a pos l pc children =>
    simp only [matchesSearch, subtreeNodes, Bool.or_eq_true, List.mem_cons]
    constructor
    · rintro (h | h)
      · exact ⟨.mk i p n a pos l pc children, Or.inl rfl, h⟩
      · obtain ⟨d, hd, hm⟩ := (anyMatchesSearch_iff q children).mp h
        exact ⟨d, Or.inr hd, hm⟩
    · rintro ⟨d, hd | hd, hm⟩
      · subst hd
        exact Or.inl hm
      · exact Or.inr ((anyMatchesSearch_iff q children).mpr ⟨d, hd, hm⟩)

theorem anyMatchesSearch_iff (q : String) (cs : List Category) :
    anyMatchesSearch q cs = true ↔ ∃ d ∈ forestNodes cs, nameMatches q d = true := by
  cases cs with
  | nil => simp [anyMatchesSearch, forestNodes]
  | cons c rest =>
    simp only [anyMatchesSearch, forestNodes, Bool.or_eq_true, List.mem_append,
      matchesSearch_iff q c, anyMatchesSearch_iff q rest]
    constructor
    · rintro (⟨d, hd, hm⟩ | ⟨d, hd, hm⟩)
      · exact ⟨d, Or.inl hd, hm⟩
      · exact ⟨d, Or.inr hd, hm⟩
    · rintro ⟨d, hd | hd, hm⟩
      · exact Or.inl ⟨d, hd, hm⟩
      · exact Or.inr ⟨d, hd, hm⟩

end

theorem subtree_subset_forest {c : Category} {cs : List Category} (hc : c ∈ cs)
    {d : Category} (hd : d ∈ subtreeNodes c) : d ∈ forestNodes cs := by
  induction cs with
  | nil => cases hc
  | cons x xs ih =>
    rcases List.mem_cons.mp hc with h | h
    · subst h
      exact List.mem_append.mpr (Or.inl hd)
    · exact List.mem_append.mpr (Or.inr (ih h))

/-- C7: the client-side category filter retains a loaded top-level
category exactly when its lowercased name contains the lowercased query as
a substring or some descendant, recursively, does; retained trees are kept
whole, so the ancestor chain to a matching grandchild is preserved; and a
query matching no node of any tree yields the empty list, not an error. -/
theorem filteredCategories_spec (q : String) (cats : List Category) :
    (∀ c, c ∈ filteredCategories q cats
        ↔ c ∈ cats ∧ ∃ d ∈ subtreeNodes c, (lowerStr q).data <:+: (lowerStr d.name).data)
    ∧ ((∀ d ∈ forestNodes cats, ¬ (lowerStr q).data <:+: (lowerStr d.name).data) →
        filteredCategories q cats = []) := by
  have hmem : ∀ c, c ∈ filteredCategories q cats
      ↔ c ∈ cats ∧ ∃ d ∈ subtreeNodes c, (lowerStr q).data <:+: (lowerStr d.name).data := by
    intro c
    rw [filteredCategories, List.mem_filter, matchesSearch_iff]
    constructor
    · rintro ⟨hc, d, hd, hm⟩
      exact ⟨hc, d, hd, (nameMatches_iff q d).mp hm⟩
    · rintro ⟨hc, d, hd, hm⟩
      exact ⟨hc, d, hd, (nameMatches_iff q d).mpr hm⟩
  refine ⟨hmem, fun hnone => ?_⟩
  rcases h : filteredCategories q cats with _ | ⟨c, rest⟩
  · rfl
  · exfalso
    have hc : c ∈ filteredCategories q cats := by
      rw [h]
      exact List.mem_cons_self c rest
    obtain ⟨hcc, d, hd, hm⟩ := (hmem c).mp hc
    exact hnone d (subtree_subset_forest hcc hd) hm

/-- C7 witness: a two-level tree whose only match for the query pan is the
grandchild node, and a query matching nothing; the grandchild keeps its
ancestor chain and the unmatched query filters everything out. -/
theorem filteredCategories_spec_witness :
    (Category.mk 1 0 "Root" true 0 1 0
        [Category.mk 2 1 "Kitchen" true 0 2 0
          [Category.mk 3 2 "Pans" true 0 3 0 []]]
      ∈ filteredCategories "pan"
          [Category.mk 1 0 "Root" true 0 1 0
            [Category.mk 2 1 "Kitchen" true 0 2 0
              [Category.mk 3 2 "Pans" true 0 3 0 []]]])
    ∧ filteredCategories "zz"
        [Category.mk 1 0 "Root" true 0 1 0
          [Category.mk 2 1 "Kitchen" true 0 2 0
            [Category.mk 3 2 "Pans" true 0 3 0 []]]] = [] := by
  have h := filteredCategories_spec "pan"
    [Category.mk 1 0 "Root" true 0 1 0
      [Category.mk 2 1 "Kitchen" true 0 2 0
        [Category.mk 3 2 "Pans" true 0 3 0 []]]]
  have h2 := filteredCategories_spec "zz"
    [Category.mk 1 0 "Root" true 0 1 0
      [Category.mk 2 1 "Kitchen" true 0 2 0
        [Category.mk 3 2 "Pans" true 0 3 0 []]]]
  constructor
  · refine (h.1 _).mpr ⟨by simp, Category.mk 3 2 "Pans" true 0 3 0 [], ?_, ?_⟩
    · simp [subtreeNodes, forestNodes]
    · decide
  · exact h2.2 (by decide)

/-- A value held by the persistence boundary: the serialized user record
written by handleLogin, modelled as the record itself since the JSON
round-trip is identity, or any other string. -/
inductive StoredVal where
  | userRec (username token : String)
  | str (s : String)
deriving DecidableEq

/-- The key-value persistence boundary (AsyncStorage), as an association
list with the most recent write first. -/
abbrev Storage := List (String × StoredVal)

/-- AsyncStorage.getItem: the most recently stored value under the key,
or null when absent. -/
def getItem (st : Storage) (k : String) : Option StoredVal :=
  (st.find? (fun p => p.1 == k)).map (fun p => p.2)

/-- AsyncStorage.setItem: the new binding shadows any previous one. -/
def setItem (st : Storage) (k : String) (v : StoredVal) : Storage :=
  (k, v) :: st

/-- AsyncStorage.removeItem: every binding of the key is dropped. -/
def removeItem (st : Storage) (k : String) : Storage :=
  st.filter (fun p => !(p.1 == k))

/-- The in-memory user of AuthContext. -/
structure UserRec where
  username : String
  token : String
deriving DecidableEq

/-- AuthProvider state: the persistence boundary, the in-memory user,
the isAuthenticated flag and the current route. -/
structure AuthState where
  storage : Storage
  user : Option UserRec
  isAuthenticated : Bool
  route : String
deriving DecidableEq

/-- handleLogin of AuthContext (api.ts bundle lines 736-749): persists the
user record under the key user, sets the in-memory user and marks the
session authenticated. -/
def handleLogin (s : AuthState) (username token : String) : AuthState :=
  { s with storage := setItem s.storage "user" (.userRec username token)
           user := some ⟨username, token⟩
           isAuthenticated := true }

/-- handleLogout of AuthContext (lines 751-760): removes the persisted
record under the key user, clears the in-memory user, clears the flag and
navigates to the root route. -/
def handleLogout (s : AuthState) : AuthState :=
  { storage := removeItem s.storage "user"
    user := none
    isAuthenticated := false
    route := "/" }

/-- checkAuthState of AuthContext (lines 723-734): restores the in-memory
session from the persisted record when one exists; the storage itself is
only read. -/
def checkAuthState (s : AuthState) : AuthState :=
  match getItem s.storage "user" with
  | some (.userRec u t) => { s with user := some ⟨u, t⟩, isAuthenticated := true }
  | some (.str _) => { s with isAuthenticated := true }
  | none => s

theorem removeItem_idem (st : Storage) (k : String) :
    removeItem (removeItem st k) k = removeItem st k := by
  induction st with
  | nil => rfl
  | cons p rest ih =>
    by_cases h : p.1 == k
    · simp [removeItem, List.filter_cons, h, ih]
    · simp [removeItem, List.filter_cons, h, ih]

theorem getItem_removeItem (st : Storage) (k : String) :
    getItem (removeItem st k) k = none := by
  induction st with
  | nil => rfl
  | cons p rest ih =>
    by_cases h : p.1 == k
    · simp only [removeItem, List.filter_cons, h]
      simpa [removeItem] using ih
    · simp [removeItem, List.filter_cons, getItem, List.find?, h, ih]

/-- C8: handleLogout is idempotent: a second logout leaves the identical
unauthenticated state, with the persisted record absent, the in-memory
user null and isAuthenticated false, and throws nothing. -/
theorem handleLogout_idempotent (s : AuthState) :
    handleLogout (handleLogout s) = handleLogout s
    ∧ (handleLogout s).user = none
    ∧ (handleLogout s).isAuthenticated = false
    ∧ getItem (handleLogout s).storage "user" = none := by
  refine ⟨?_, rfl, rfl, getItem_removeItem _ _⟩
  simp [handleLogout, removeItem_idem]

/-- JS template interpolation of the value deleteCategory reads from
storage: null interpolates as the string null; a stored plain string as
itself; the user record as its serialized text, rendered here as the pair
(no code path ever stores one under the key token). -/
def renderToken : Option StoredVal → String
  | none => "null"
  | some (.str s) => s
  | some (.userRec u t) => u ++ ":" ++ t

/-- The Authorization header deleteCategory builds (api.ts lines 671-683):
Bearer followed by the interpolation of AsyncStorage.getItem of the key
token. -/
def deleteCategory_authHeader (st : Storage) : String :=
  "Bearer " ++ renderToken (getItem st "token")

/-- The operations of the session lifecycle that touch the persistence
boundary: login stores the user record under the key user, logout removes
the key user, and the restore-at-start check only reads. -/
inductive StorageOp where
  | login (username token : String)
  | logout
  | checkAuth
deriving DecidableEq

def applyOp (s : AuthState) : StorageOp → AuthState
  | .login u t => handleLogin s u t
  | .logout => handleLogout s
  | .checkAuth => checkAuthState s

def applyOps (s : AuthState) : List StorageOp → AuthState
  | [] => s
  | op :: rest => applyOps (applyOp s op) rest

theorem getItem_removeItem_of_none {st : Storage} {k k2 : String}
    (h : getItem st k = none) : getItem (removeItem st k2) k = none := by
  induction st with
  | nil => rfl
  | cons p rest ih =>
    by_cases hp : p.1 == k
    · simp [getItem, List.find?, hp] at h
    · have hrest : getItem rest k = none := by
        simpa [getItem, List.find?, hp] using h
      by_cases hq : p.1 == k2
      · simp only [removeItem, List.filter_cons, hq]
        simpa [removeItem] using ih hrest
      · simp only [removeItem, List.filter_cons, hq]
        simpa [removeItem, getItem, List.find?, hp] using ih hrest

theorem applyOp_token_none {s : AuthState} (op : StorageOp)
    (h : getItem s.storage "token" = none) :
    getItem (applyOp s op).storage "token" = none := by
  cases op with
  | login u t =>
    simp only [applyOp, handleLogin, setItem]
    simpa [getItem, List.find?] using h
  | logout =>
    exact getItem_removeItem_of_none h
  | checkAuth =>
    simp only [applyOp, checkAuthState]
    rcases hg : getItem s.storage "user" with _ | v
    · exact h
    · cases v <;> exact h

/-- C9: deleteCategory attaches as bearer credential whatever storage
holds under the key token; handleLogin persists the session only under
the key user and no session-lifecycle operation ever writes the key
token, so starting from any store without that key, after any sequence of
logins, logouts and restore checks the key is still absent and
the Authorization header of deleteCategory is the literal Bearer null. -/
theorem deleteCategory_token_never_written (s : AuthState) (ops : List StorageOp)
    (h : getItem s.storage "token" = none) :
    getItem (applyOps s ops).storage "token" = none
    ∧ deleteCategory_authHeader (applyOps s ops).storage = "Bearer null" := by
  have hnone : getItem (applyOps s ops).storage "token" = none := by
    induction ops generalizing s with
    | nil => exact h
    | cons op rest ih => exact ih (applyOp s op) (applyOp_token_none op h)
  refine ⟨hnone, ?_⟩
  rw [deleteCategory_authHeader, hnone]
  rfl

/-- C9 witness: from an empty store, login followed by a restore check
and a second login leaves the key token absent and deleteCategory sends
Bearer null. -/
theorem deleteCategory_token_never_written_witness :
    getItem (⟨[], none, false, "/"⟩ : AuthState).storage "token" = none
    ∧ (getItem (applyOps ⟨[], none, false, "/"⟩
          [.login "admin" "tok123", .checkAuth, .login "root" "tok456"]).storage "token" = none
      ∧ deleteCategory_authHeader (applyOps ⟨[], none, false, "/"⟩
          [.login "admin" "tok123", .checkAuth, .login "root" "tok456"]).storage
          = "Bearer null") :=
  ⟨rfl, deleteCategory_token_never_written ⟨[], none, false, "/"⟩
      [.login "admin" "tok123", .checkAuth, .login "root" "tok456"] rfl⟩
